import Mathlib

/-!
Verification of the socketio-auth admission-control library
(src/lib/socketio-auth.js) against its specification.

Qualified connection identifiers are modelled as lists of characters;
namespaces carry a raw connection list (`nsp.sockets`) and a Broadcast
Membership Set (`nsp.connected`, a key-value map keyed by qualified id).
Side effects (event emission, hook invocation, disconnects) are modelled
as explicit event traces.
-/

namespace SocketioAuth

/-- A qualified per-namespace connection identifier, as a list of characters. -/
abbrev Id := List Char

/-- JavaScript `String.prototype.indexOf` for a single character: the index of
the first occurrence, or -1 when absent (src line 124: `socketId.indexOf("#")`). -/
def jsIndexOf (l : List Char) (c : Char) : Int :=
  match l with
  | [] => -1
  | x :: xs =>
    if x = c then 0
    else if jsIndexOf xs c = -1 then -1 else jsIndexOf xs c + 1

/-- Embedding of `rootSocketId` (src lines 123-125):
`socketId.substring(socketId.indexOf("#") + 1)`. -/
def rootSocketId (socketId : Id) : Id :=
  socketId.drop (jsIndexOf socketId '#' + 1).toNat

/-- Refinement comparator following the SPEC's words (§4.4): "the root
identifier is the substring after the LAST occurrence of that delimiter
(if the delimiter is absent, the whole string is its own root)". -/
def rootIdSpecLast (socketId : Id) : Id :=
  (socketId.reverse.takeWhile (fun c => !decide (c = '#'))).reverse

lemma jsIndexOf_eq_neg_one_of_not_mem (l : List Char) (c : Char) (h : c ∉ l) :
    jsIndexOf l c = -1 := by
  induction l with
  | nil => rfl
  | cons x xs ih =>
    simp only [List.mem_cons, not_or] at h
    have hx : ¬ x = c := fun hx => h.1 hx.symm
    simp [jsIndexOf, hx, ih h.2]

lemma jsIndexOf_append (pre post : List Char) (h : '#' ∉ pre) :
    jsIndexOf (pre ++ '#' :: post) '#' = (pre.length : Int) := by
  induction pre with
  | nil => simp [jsIndexOf]
  | cons a pre ih =>
    simp only [List.mem_cons, not_or] at h
    have hne : ¬ a = '#' := fun hx => h.1 hx.symm
    have ih2 := ih h.2
    have hnneg : ¬ ((pre.length : Int) = -1) := by omega
    simp only [List.cons_append, jsIndexOf, hne, if_false]
    rw [List.append_eq, ih2]
    simp only [hnneg, if_false, List.length_cons]
    push_cast
    ring

lemma rootSocketId_of_not_mem (l : Id) (h : '#' ∉ l) : rootSocketId l = l := by
  simp [rootSocketId, jsIndexOf_eq_neg_one_of_not_mem l '#' h]

lemma rootSocketId_append (pre post : List Char) (h : '#' ∉ pre) :
    rootSocketId (pre ++ '#' :: post) = post := by
  have hidx := jsIndexOf_append pre post h
  have htn : (jsIndexOf (pre ++ '#' :: post) '#' + 1).toNat = pre.length + 1 := by
    omega
  have hsplit : pre ++ '#' :: post = (pre ++ ('#' :: [])) ++ post := by simp
  have hlen : (pre ++ ('#' :: [])).length = pre.length + 1 := by simp
  simp only [rootSocketId, htn]
  rw [hsplit, List.drop_left' hlen]

/-- C1 counterexample: the claim says `rootId` returns the substring after the
LAST occurrence of the delimiter, but on `"a#b#c"` the code returns `"b#c"`
(substring after the FIRST occurrence), not `"c"`. -/
theorem rootSocketId_not_last_occurrence :
    rootSocketId ('a' :: '#' :: 'b' :: '#' :: 'c' :: []) = ('b' :: '#' :: 'c' :: [])
    ∧ rootIdSpecLast ('a' :: '#' :: 'b' :: '#' :: 'c' :: []) = ('c' :: [])
    ∧ rootSocketId ('a' :: '#' :: 'b' :: '#' :: 'c' :: [])
        ≠ rootIdSpecLast ('a' :: '#' :: 'b' :: '#' :: 'c' :: []) := by
  refine ⟨by decide, by decide, by decide⟩

/-- C1 (amended): `rootSocketId` returns the substring after the FIRST
occurrence of the delimiter `#`, and for a string not containing the
delimiter it returns the whole string unchanged. -/
theorem rootSocketId_first_occurrence (l pre post : Id) :
    ('#' ∉ l → rootSocketId l = l)
    ∧ ('#' ∉ pre → rootSocketId (pre ++ '#' :: post) = post) :=
  ⟨rootSocketId_of_not_mem l, rootSocketId_append pre post⟩

/-- C1 witness: concrete instantiation of `rootSocketId_first_occurrence`. -/
theorem rootSocketId_first_occurrence_witness :
    rootSocketId ('X' :: 'Y' :: 'Z' :: []) = ('X' :: 'Y' :: 'Z' :: [])
    ∧ rootSocketId ('/' :: 'a' :: '#' :: 'X' :: []) = ('X' :: []) :=
  ⟨(rootSocketId_first_occurrence ('X' :: 'Y' :: 'Z' :: []) [] []).1 (by decide),
   (rootSocketId_first_occurrence [] ('/' :: 'a' :: []) ('X' :: [])).2 (by decide)⟩

/-- A per-namespace connection (a socket object): its qualified id and the
mutable authentication flag `socket.auth` (src line 28 initialises it to
false; src line 96 sets it to true). Presence in a namespace's socket list
models transport-level connectedness. -/
structure Socket where
  id : Id
  auth : Bool
deriving DecidableEq

/-- One namespace of the server: its name, the raw connection list
`nsp.sockets`, and the Broadcast Membership Set `nsp.connected`, a
key-value map from qualified id to socket. -/
structure Nsp where
  name : String
  sockets : List Socket
  connected : List (Id × Socket)
deriving DecidableEq

/-- Payload of an emitted event: boolean `true` on success, or the
`message` field of the unauthorized payload object. -/
inductive Payload where
  | boolP (b : Bool)
  | msgP (message : String)
deriving DecidableEq

/-- Observable side effects of the embedded operations, in order of
occurrence: invocation of the post-authentication hook, an event emission
to one socket, the client's delivery acknowledgment of the previous
emission, and a forcible disconnect with an optional reason. -/
inductive Event where
  | post (sid : Id)
  | emit (sid : Id) (name : String) (payload : Payload)
  | ack (sid : Id)
  | disconnect (sid : Id) (reason : Option String)
deriving DecidableEq

/-- Key lookup in the Broadcast Membership Set (JS `id in nsp.connected`). -/
def hasKey (k : Id) (m : List (Id × Socket)) : Bool :=
  m.any (fun p => decide (p.1 = k))

/-- Key removal (JS `delete nsp.connected[id]`, src line 81); deleting an
absent key is a no-op. -/
def eraseKey (k : Id) (m : List (Id × Socket)) : List (Id × Socket) :=
  m.filter (fun p => !decide (p.1 = k))

/-- Key assignment (JS `nsp.connected[k] = socket`, src line 101). -/
def insertKey (k : Id) (v : Socket) (m : List (Id × Socket)) : List (Id × Socket) :=
  (k, v) :: eraseKey k m

/-- Embedding of the `_.findWhere(nsp.sockets, ...)` scans (src lines 89-91
and 108-110): first socket whose root id matches the given root. -/
def findWhere (sockets : List Socket) (root : Id) : Option Socket :=
  sockets.find? (fun s => decide (rootSocketId s.id = root))

/-- In-place mutation `socket.auth = true` (src line 96) of the found socket
object, reflected in the namespace's socket list by updating every list
entry holding that object (identified by its qualified id). -/
def setAuth (sockets : List Socket) (sid : Id) : List Socket :=
  sockets.map (fun s => if s.id = sid then { s with auth := true } else s)

/-- Embedding of `authConnections` (src lines 88-102): find the first socket
in `nsp.sockets` whose root id matches the root of `socketId`; if found, set
its auth flag, run the post-authentication hook, emit `authenticated`
with payload `true`, and re-add it to `nsp.connected` — keyed by the
PARAMETER `socketId` (src line 101 `nsp.connected[socketId] = socket`),
not by the found socket's own id. If no socket matches, do nothing. -/
def authConnections (nsp : Nsp) (socketId : Id) : Nsp × List Event :=
  match findWhere nsp.sockets (rootSocketId socketId) with
  | none => (nsp, [])
  | some s =>
    ({ nsp with
        sockets := setAuth nsp.sockets s.id,
        connected := insertKey socketId { s with auth := true } nsp.connected },
     [Event.post s.id, Event.emit s.id "authenticated" (Payload.boolP true)])

/-- Transport-level forcible close of one socket: it leaves the namespace's
raw connection list and its Broadcast Membership Set. Modelled from the
spec (§6): the Namespace Registry Adapter's "forcibly close one connection";
closing an already-closed connection is a no-op of the transport layer. -/
def disconnectSocket (nsp : Nsp) (sid : Id) : Nsp :=
  { nsp with
      sockets := nsp.sockets.filter (fun s => !decide (s.id = sid)),
      connected := eraseKey sid nsp.connected }

/-- Embedding of `disconnectConnections` (src lines 107-118): find the first
socket whose root id matches; if found, emit `unauthorized` with payload
`{message}` and, in the delivery-acknowledgment callback, disconnect it.
The event trace records the emission, the acknowledgment, then the
disconnect. If no socket matches, do nothing. -/
def disconnectConnections (nsp : Nsp) (socketId : Id) (message : String) :
    Nsp × List Event :=
  match findWhere nsp.sockets (rootSocketId socketId) with
  | none => (nsp, [])
  | some s =>
    (disconnectSocket nsp s.id,
     [Event.emit s.id "unauthorized" (Payload.msgP message),
      Event.ack s.id,
      Event.disconnect s.id none])

/-- Embedding of the body of `forbidConnections`'s connect listener
(src lines 76-83): if the socket is not authenticated, delete its entry
from the Broadcast Membership Set, keyed by its own id. -/
def forbidConnection (nsp : Nsp) (s : Socket) : Nsp :=
  if s.auth then nsp else { nsp with connected := eraseKey s.id nsp.connected }

/-- One new connection to a namespace: the transport layer registers the
fresh socket (auth flag false, src line 28) in the raw connection list and
the Broadcast Membership Set (modelled from the spec, §6), then the
Admission Filter's connect listener runs (src lines 76-83). -/
def connectStep (nsp : Nsp) (sid : Id) : Nsp :=
  forbidConnection
    { nsp with
        sockets := nsp.sockets ++ [{ id := sid, auth := false }],
        connected := insertKey sid { id := sid, auth := false } nsp.connected }
    { id := sid, auth := false }

/-- A JS error object carried by the verification predicate's callback.
Every JS `Error` has a string `message` property. -/
structure JsError where
  message : String
deriving DecidableEq

/-- The message computation of `authenticateSocket`'s failure branch
(src line 57): `err ? err.message : 'Authentication failure'`. -/
def msgOf : Option JsError → String
  | some e => e.message
  | none => "Authentication failure"

/-- Lift a per-namespace action to the `_.each(io.nsps, ...)` fan-out over
all namespaces (src lines 52 and 58), concatenating the event traces. -/
def mapFanout (f : Nsp → Nsp × List Event) (nsps : List Nsp) :
    List Nsp × List Event :=
  (nsps.map (fun n => (f n).1), (nsps.map (fun n => (f n).2)).flatten)

/-- Embedding of the completion callback of `authenticateSocket`
(src lines 47-60): branch on the `success` flag alone; on success run
`authConnections` over every namespace, otherwise run
`disconnectConnections` with the computed message. -/
def authenticateOutcome (nsps : List Nsp) (socketId : Id)
    (err : Option JsError) (success : Bool) : List Nsp × List Event :=
  if success then
    mapFanout (fun nsp => authConnections nsp socketId) nsps
  else
    mapFanout (fun nsp => disconnectConnections nsp socketId (msgOf err)) nsps

/-- The timer callback of `setupTimeout` (src lines 39-44) fired for the
socket with id `sid`: if the socket's auth flag is not set, disconnect it
with reason `'unauthorized'`. A socket no longer in the namespace has
already been closed, and the transport layer's disconnect of a closed
socket is a no-op (spec §6). -/
def timerFireStep (nsp : Nsp) (sid : Id) : Nsp × List Event :=
  match nsp.sockets.find? (fun s => decide (s.id = sid)) with
  | some s =>
    if s.auth then (nsp, [])
    else (disconnectSocket nsp sid, [Event.disconnect sid (some "unauthorized")])
  | none => (nsp, [])

/-- The spec's authentication status of the session registered in a
namespace under qualified id `sid` (spec §3): `authenticated` when the auth
flag is set, `pending` while connected with the flag unset, `rejected` once
the registration has been closed and removed. -/
inductive Status where
  | pending
  | authenticated
  | rejected
deriving DecidableEq

def statusOf (nsp : Nsp) (sid : Id) : Status :=
  match nsp.sockets.find? (fun s => decide (s.id = sid)) with
  | some s => if s.auth then Status.authenticated else Status.pending
  | none => Status.rejected

/-- Events a live session can undergo after connecting: a verification
outcome for the authentication message sent by the connection with id
`sender`, or the firing of the timer guarding the socket with id `sid`. -/
inductive SessionEvent where
  | outcome (sender : Id) (err : Option JsError) (success : Bool)
  | timerFire (sid : Id)

/-- The per-namespace effect of one `SessionEvent` (the namespace-local
part of the fan-out of src lines 47-60, or the timer callback of src
lines 39-44). -/
def stepNsp (nsp : Nsp) : SessionEvent → Nsp × List Event
  | SessionEvent.outcome sender err success =>
    if success then authConnections nsp sender
    else disconnectConnections nsp sender (msgOf err)
  | SessionEvent.timerFire sid => timerFireStep nsp sid

/-- A JavaScript value that may sit in the `timeout` configuration slot:
absent/undefined, a number, or a string (the sentinel `'none'`). -/
inductive JsVal where
  | undef
  | num (n : Nat)
  | str (s : String)
deriving DecidableEq

/-- JavaScript falsiness of such a value: `undefined`, `0` and `""` are
falsy. -/
def isFalsy : JsVal → Bool
  | JsVal.undef => true
  | JsVal.num n => decide (n = 0)
  | JsVal.str s => decide (s = "")

/-- A caller-supplied handler function slot: lodash's `_.noop` or an opaque
caller-supplied function, identified by a tag. -/
inductive Handler where
  | noop
  | custom (tag : String)
deriving DecidableEq

/-- The configuration object passed to the library (src lines 12-16):
every field may be absent. -/
structure Config where
  timeout : JsVal
  authenticate : Option Handler
  postAuthenticate : Option Handler
deriving DecidableEq

/-- The result of `cleanConfig`. -/
structure CleanedConfig where
  timeout : JsVal
  authenticate : Option Handler
  postAuthenticate : Handler
deriving DecidableEq

/-- Embedding of `cleanConfig` (src lines 62-69): `config = config || {}`,
then `timeout: config.timeout || 1000`, `authenticate` passed through
unvalidated, `postAuthenticate: config.postAuthenticate || _.noop`. -/
def cleanConfig (config : Option Config) : CleanedConfig :=
  let c := config.getD { timeout := JsVal.undef, authenticate := none, postAuthenticate := none }
  { timeout := if isFalsy c.timeout then JsVal.num 1000 else c.timeout,
    authenticate := c.authenticate,
    postAuthenticate := c.postAuthenticate.getD Handler.noop }

/-- Embedding of `setupTimeout` (src lines 35-45): with the literal value
`'none'` it returns without creating a timer; otherwise a one-shot timer
holding the configured delay is created. -/
def setupTimeout (timeout : JsVal) : Option JsVal :=
  if timeout = JsVal.str "none" then none else some timeout

/-- The numeric delay `setTimeout` runs with (non-numeric delays coerce
to 0; only the `some (num n)` case is exercised by the claims). -/
def delayOf : JsVal → Nat
  | JsVal.num n => n
  | _ => 0

/-- The Timer Guard's total effect on one namespace observed at elapsed
time `t`: a created one-shot timer has fired iff its delay has elapsed; no
timer means no effect at any time. -/
def guardAt (timer : Option JsVal) (t : Nat) (nsp : Nsp) (sid : Id) :
    Nsp × List Event :=
  match timer with
  | none => (nsp, [])
  | some v => if delayOf v ≤ t then timerFireStep nsp sid else (nsp, [])

lemma hasKey_eraseKey (k : Id) (m : List (Id × Socket)) :
    hasKey k (eraseKey k m) = false := by
  simp only [hasKey, eraseKey, List.any_eq_false]
  intro p hp
  have h2 := (List.mem_filter.mp hp).2
  simp only [Bool.not_eq_eq_eq_not, Bool.not_true, decide_eq_false_iff_not] at h2
  simp [h2]

lemma eraseKey_of_not_hasKey (k : Id) (m : List (Id × Socket))
    (h : hasKey k m = false) : eraseKey k m = m := by
  simp only [hasKey, List.any_eq_false] at h
  simp only [eraseKey]
  rw [List.filter_eq_self]
  intro p hp
  have := h p hp
  simpa using this

lemma find_none_filter (l : List Socket) (p q : Socket → Bool)
    (h : l.find? p = none) : (l.filter q).find? p = none := by
  rw [List.find?_eq_none] at h ⊢
  intro x hx
  exact h x (List.mem_filter.mp hx).1

lemma find_id_filter_out (l : List Socket) (sid : Id) :
    (l.filter (fun s => !decide (s.id = sid))).find? (fun s => decide (s.id = sid))
      = none := by
  rw [List.find?_eq_none]
  intro x hx
  have h2 := (List.mem_filter.mp hx).2
  simpa using h2

lemma find_id_filter_ne (l : List Socket) (sid tid : Id) (h : ¬ sid = tid) :
    (l.filter (fun s => !decide (s.id = tid))).find? (fun s => decide (s.id = sid))
      = l.find? (fun s => decide (s.id = sid)) := by
  induction l with
  | nil => rfl
  | cons a l ih =>
    by_cases ha : a.id = tid
    · have hb : decide (a.id = sid) = false := by
        simp only [decide_eq_false_iff_not]
        intro hs
        exact h (by rw [← hs]; exact ha)
      simp only [List.filter_cons]
      rw [if_neg (by simp [ha]), ih]
      simp only [List.find?_cons, hb]
    · simp only [List.filter_cons]
      rw [if_pos (by simp [ha])]
      simp only [List.find?_cons]
      cases hb : decide (a.id = sid) <;> simp [ih]

/-- C2 (code bug): on success fan-out into namespace `/b`, the Registration
found for root `XYZ` is the socket with qualified id `/b#XYZ`, yet the code
re-adds it to `/b`'s Broadcast Membership Set under the key `/a#XYZ` — the
id of the connection that sent the authentication message (src line 101
uses the parameter `socketId`, not `socket.id`) — so the set gains the
foreign key and still lacks the found connection's own key. -/
theorem authConnections_reinserts_under_sender_key :
    findWhere [{ id := "/b#XYZ".toList, auth := false }]
        (rootSocketId "/a#XYZ".toList)
      = some { id := "/b#XYZ".toList, auth := false }
    ∧ hasKey "/a#XYZ".toList
        (authConnections
          { name := "/b", sockets := [{ id := "/b#XYZ".toList, auth := false }],
            connected := [] }
          "/a#XYZ".toList).1.connected = true
    ∧ hasKey "/b#XYZ".toList
        (authConnections
          { name := "/b", sockets := [{ id := "/b#XYZ".toList, auth := false }],
            connected := [] }
          "/a#XYZ".toList).1.connected = false := by
  refine ⟨by decide, by decide, by decide⟩

/-- C4: the Admission Filter removes an unauthenticated connection from the
namespace's Broadcast Membership Set while leaving the raw connection list
untouched; the removal is a no-op when the entry is already absent; and
immediately after the connect handling of a fresh connection completes, the
connection is absent from the Broadcast Membership Set while present in the
raw connection list. -/
theorem forbid_excludes_unauthenticated (nsp : Nsp) (s : Socket) (sid : Id) :
    (s.auth = false → hasKey s.id (forbidConnection nsp s).connected = false)
    ∧ (s.auth = false → (forbidConnection nsp s).sockets = nsp.sockets)
    ∧ (hasKey s.id nsp.connected = false → forbidConnection nsp s = nsp)
    ∧ hasKey sid (connectStep nsp sid).connected = false
    ∧ (connectStep nsp sid).sockets
        = nsp.sockets ++ [{ id := sid, auth := false }] := by
  refine ⟨?_, ?_, ?_, ?_, ?_⟩
  · intro h
    simp [forbidConnection, h, hasKey_eraseKey]
  · intro h
    simp [forbidConnection, h]
  · intro h
    cases hauth : s.auth with
    | true => simp [forbidConnection, hauth]
    | false =>
      simp only [forbidConnection, hauth, Bool.false_eq_true, if_false]
      rw [eraseKey_of_not_hasKey s.id nsp.connected h]
  · simp [connectStep, forbidConnection, hasKey_eraseKey]
  · simp [connectStep, forbidConnection]

/-- C4 witness: concrete instantiation of `forbid_excludes_unauthenticated`
at an unauthenticated socket and an empty membership set. -/
theorem forbid_excludes_unauthenticated_witness :
    hasKey ('x' :: [])
      (forbidConnection
        { name := "/a", sockets := [], connected := [] }
        { id := 'x' :: [], auth := false }).connected = false
    ∧ forbidConnection
        { name := "/a", sockets := [], connected := [] }
        { id := 'x' :: [], auth := false }
      = { name := "/a", sockets := [], connected := [] } :=
  ⟨(forbid_excludes_unauthenticated
      { name := "/a", sockets := [], connected := [] }
      { id := 'x' :: [], auth := false } ('x' :: [])).1 (by decide),
   (forbid_excludes_unauthenticated
      { name := "/a", sockets := [], connected := [] }
      { id := 'x' :: [], auth := false } ('x' :: [])).2.2.1 (by decide)⟩

/-- C6: when the authentication timer fires, a still-pending session is
disconnected with reason `unauthorized` and ends up rejected; a session
whose status has already left pending (authenticated or rejected) is left
entirely unchanged and no event is produced. -/
theorem timer_fire_pending_disconnects (nsp : Nsp) (sid : Id) :
    (statusOf nsp sid = Status.pending →
        (timerFireStep nsp sid).2 = [Event.disconnect sid (some "unauthorized")]
        ∧ statusOf (timerFireStep nsp sid).1 sid = Status.rejected)
    ∧ (statusOf nsp sid ≠ Status.pending → timerFireStep nsp sid = (nsp, [])) := by
  cases hf : nsp.sockets.find? (fun s => decide (s.id = sid)) with
  | none =>
    constructor
    · intro h
      simp [statusOf, hf] at h
    · intro _
      simp [timerFireStep, hf]
  | some s =>
    cases hauth : s.auth with
    | true =>
      constructor
      · intro h
        simp [statusOf, hf, hauth] at h
      · intro _
        simp [timerFireStep, hf, hauth]
    | false =>
      constructor
      · intro _
        refine ⟨by simp [timerFireStep, hf, hauth], ?_⟩
        have hnone : (disconnectSocket nsp sid).sockets.find?
            (fun s => decide (s.id = sid)) = none := by
          simp only [disconnectSocket]
          exact find_id_filter_out nsp.sockets sid
        simp [timerFireStep, hf, hauth, statusOf, hnone]
      · intro h
        exact absurd (by simp [statusOf, hf, hauth]) h

/-- C6 witness: concrete instantiations of `timer_fire_pending_disconnects`
for a pending socket and for an authenticated one. -/
theorem timer_fire_pending_disconnects_witness :
    ((timerFireStep
        { name := "/a", sockets := [{ id := 'x' :: [], auth := false }], connected := [] }
        ('x' :: [])).2 = [Event.disconnect ('x' :: []) (some "unauthorized")]
      ∧ statusOf (timerFireStep
        { name := "/a", sockets := [{ id := 'x' :: [], auth := false }], connected := [] }
        ('x' :: [])).1 ('x' :: []) = Status.rejected)
    ∧ timerFireStep
        { name := "/a", sockets := [{ id := 'x' :: [], auth := true }], connected := [] }
        ('x' :: []) =
      ({ name := "/a", sockets := [{ id := 'x' :: [], auth := true }], connected := [] }, []) :=
  ⟨(timer_fire_pending_disconnects
      { name := "/a", sockets := [{ id := 'x' :: [], auth := false }], connected := [] }
      ('x' :: [])).1 (by decide),
   (timer_fire_pending_disconnects
      { name := "/a", sockets := [{ id := 'x' :: [], auth := true }], connected := [] }
      ('x' :: [])).2 (by decide)⟩

/-- C9: a namespace containing no Registration whose root identifier matches
is skipped by both the success fan-out and the failure fan-out: the
namespace (its Broadcast Membership Set included) is returned unchanged and
no event is produced. -/
theorem fanout_skips_nonmatching (nsp : Nsp) (sid : Id) (m : String) :
    (∀ s ∈ nsp.sockets, rootSocketId s.id ≠ rootSocketId sid) →
      authConnections nsp sid = (nsp, [])
      ∧ disconnectConnections nsp sid m = (nsp, []) := by
  intro h
  have hf : findWhere nsp.sockets (rootSocketId sid) = none := by
    simp only [findWhere]
    rw [List.find?_eq_none]
    intro s hs
    simpa using h s hs
  exact ⟨by simp [authConnections, hf], by simp [disconnectConnections, hf]⟩

/-- C9 witness: concrete instantiation of `fanout_skips_nonmatching` on a
namespace whose only socket has a different root identifier. -/
theorem fanout_skips_nonmatching_witness :
    authConnections
        { name := "/b", sockets := [{ id := "/b#Q".toList, auth := false }], connected := [] }
        "/a#XYZ".toList
      = ({ name := "/b", sockets := [{ id := "/b#Q".toList, auth := false }], connected := [] }, [])
    ∧ disconnectConnections
        { name := "/b", sockets := [{ id := "/b#Q".toList, auth := false }], connected := [] }
        "/a#XYZ".toList "m"
      = ({ name := "/b", sockets := [{ id := "/b#Q".toList, auth := false }], connected := [] }, []) :=
  fanout_skips_nonmatching
    { name := "/b", sockets := [{ id := "/b#Q".toList, auth := false }], connected := [] }
    "/a#XYZ".toList "m" (by decide)

/-- C10: configuration cleaning replaces every falsy timeout value with the
default 1000; in particular a caller-supplied timeout of 0 yields 1000 and
an entirely omitted config object yields 1000. -/
theorem cleanConfig_defaults_timeout (c : Config) :
    (isFalsy c.timeout = true → (cleanConfig (some c)).timeout = JsVal.num 1000)
    ∧ (cleanConfig (some { c with timeout := JsVal.num 0 })).timeout = JsVal.num 1000
    ∧ (cleanConfig none).timeout = JsVal.num 1000 := by
  refine ⟨fun h => ?_, ?_, rfl⟩
  · simp [cleanConfig, h]
  · simp [cleanConfig, isFalsy]

/-- C10 witness: concrete instantiation of `cleanConfig_defaults_timeout`
at an absent timeout value. -/
theorem cleanConfig_defaults_timeout_witness :
    (cleanConfig
      (some { timeout := JsVal.undef, authenticate := none, postAuthenticate := none })).timeout
      = JsVal.num 1000 :=
  (cleanConfig_defaults_timeout
    { timeout := JsVal.undef, authenticate := none, postAuthenticate := none }).1
    (by decide)

/-- C7: with the literal configuration value `'none'`, configuration
cleaning preserves the sentinel (it is truthy), `setupTimeout` creates no
timer, and the Timer Guard therefore has no effect on any namespace at any
elapsed time. -/
theorem timeout_none_never_closes (c : Config) (t : Nat) (nsp : Nsp) (sid : Id) :
    c.timeout = JsVal.str "none" →
      setupTimeout (cleanConfig (some c)).timeout = none
      ∧ guardAt (setupTimeout (cleanConfig (some c)).timeout) t nsp sid = (nsp, []) := by
  intro h
  have h1 : (cleanConfig (some c)).timeout = JsVal.str "none" := by
    simp [cleanConfig, h, isFalsy]
  have h2 : setupTimeout (cleanConfig (some c)).timeout = none := by
    simp [setupTimeout, h1]
  refine ⟨h2, ?_⟩
  rw [h2]
  rfl

/-- C7 witness: concrete instantiation of `timeout_none_never_closes`. -/
theorem timeout_none_never_closes_witness :
    setupTimeout
      (cleanConfig
        (some { timeout := JsVal.str "none", authenticate := none, postAuthenticate := none })).timeout
      = none
    ∧ guardAt
        (setupTimeout
          (cleanConfig
            (some { timeout := JsVal.str "none", authenticate := none, postAuthenticate := none })).timeout)
        999999
        { name := "/a", sockets := [{ id := 'x' :: [], auth := false }], connected := [] }
        ('x' :: [])
      = ({ name := "/a", sockets := [{ id := 'x' :: [], auth := false }], connected := [] }, []) :=
  timeout_none_never_closes
    { timeout := JsVal.str "none", authenticate := none, postAuthenticate := none }
    999999
    { name := "/a", sockets := [{ id := 'x' :: [], auth := false }], connected := [] }
    ('x' :: []) (by decide)

/-- C3 counterexample: the predicate's completion callback reports an error
together with `success = true`; the code branches on `success` alone
(src line 49), so the SUCCESS fan-out runs — the socket is marked
authenticated and receives the `authenticated` event — instead of the
unauthorized fan-out the claim requires for every error report. -/
theorem outcome_error_with_success_ignored :
    (authenticateOutcome
        [{ name := "/a", sockets := [{ id := "/a#XYZ".toList, auth := false }], connected := [] }]
        "/a#XYZ".toList (some { message := "boom" }) true).2
      = [Event.post "/a#XYZ".toList,
         Event.emit "/a#XYZ".toList "authenticated" (Payload.boolP true)]
    ∧ (authenticateOutcome
        [{ name := "/a", sockets := [{ id := "/a#XYZ".toList, auth := false }], connected := [] }]
        "/a#XYZ".toList (some { message := "boom" }) true).1
      = [{ name := "/a",
           sockets := [{ id := "/a#XYZ".toList, auth := true }],
           connected := [("/a#XYZ".toList, { id := "/a#XYZ".toList, auth := true })] }] := by
  refine ⟨by decide, by decide⟩

/-- C3 (amended): the outcome is decided solely by the `success` flag. When
`success` is false the unauthorized fan-out runs whatever the error value:
no namespace gains a socket it did not already hold (so no Session is newly
marked authenticated) and no `authenticated` event is emitted. When
`success` is true a reported error is ignored entirely: the run is
identical to the run with no error. -/
theorem outcome_depends_only_on_success (nsps : List Nsp) (sid : Id) (e : JsError) :
    authenticateOutcome nsps sid (some e) true = authenticateOutcome nsps sid none true
    ∧ (∀ err nsp' s', nsp' ∈ (authenticateOutcome nsps sid err false).1 →
        s' ∈ nsp'.sockets → ∃ nsp ∈ nsps, s' ∈ nsp.sockets)
    ∧ (∀ err ev, ev ∈ (authenticateOutcome nsps sid err false).2 →
        ∀ tid p, ¬ ev = Event.emit tid "authenticated" p) := by
  refine ⟨rfl, ?_, ?_⟩
  · intro err nsp' s' h1 h2
    simp only [authenticateOutcome, Bool.false_eq_true, if_false, mapFanout,
      List.mem_map] at h1
    obtain ⟨nsp, hnsp, hre⟩ := h1
    refine ⟨nsp, hnsp, ?_⟩
    cases hw : findWhere nsp.sockets (rootSocketId sid) with
    | none =>
      rw [← hre] at h2
      simp only [disconnectConnections, hw] at h2
      exact h2
    | some s =>
      rw [← hre] at h2
      simp only [disconnectConnections, hw, disconnectSocket] at h2
      exact (List.mem_filter.mp h2).1
  · intro err ev hev tid p heq
    simp only [authenticateOutcome, Bool.false_eq_true, if_false, mapFanout,
      List.mem_flatten, List.mem_map] at hev
    obtain ⟨l, ⟨nsp, hnsp, hre⟩, hev⟩ := hev
    cases hw : findWhere nsp.sockets (rootSocketId sid) with
    | none =>
      rw [← hre] at hev
      simp [disconnectConnections, hw] at hev
    | some s =>
      rw [← hre] at hev
      simp only [disconnectConnections, hw, List.mem_cons, List.mem_singleton,
        List.not_mem_nil] at hev
      rcases hev with h | h | h | h
      · rw [heq] at h
        have : "authenticated" = "unauthorized" := by
          injection h with h1 h2 h3
        exact absurd this (by decide)
      · rw [heq] at h
        cases h
      · rw [heq] at h
        cases h
      · exact h

/-- C3 witness: concrete instantiation of `outcome_depends_only_on_success`;
the namespace `/b` holds no matching registration, so its socket survives
the failure fan-out unchanged. -/
theorem outcome_depends_only_on_success_witness :
    authenticateOutcome
        [{ name := "/b", sockets := [{ id := "/b#Q".toList, auth := false }], connected := [] }]
        "/a#XYZ".toList (some { message := "x" }) true
      = authenticateOutcome
        [{ name := "/b", sockets := [{ id := "/b#Q".toList, auth := false }], connected := [] }]
        "/a#XYZ".toList none true
    ∧ (∃ nsp ∈
        ([{ name := "/b", sockets := [{ id := "/b#Q".toList, auth := false }], connected := [] }] :
          List Nsp),
        ({ id := "/b#Q".toList, auth := false } : Socket) ∈ nsp.sockets) :=
  ⟨(outcome_depends_only_on_success
      [{ name := "/b", sockets := [{ id := "/b#Q".toList, auth := false }], connected := [] }]
      "/a#XYZ".toList { message := "x" }).1,
   (outcome_depends_only_on_success
      [{ name := "/b", sockets := [{ id := "/b#Q".toList, auth := false }], connected := [] }]
      "/a#XYZ".toList { message := "x" }).2.1 none
      { name := "/b", sockets := [{ id := "/b#Q".toList, auth := false }], connected := [] }
      { id := "/b#Q".toList, auth := false } (by decide) (by decide)⟩

/-- Recogniser for `unauthorized` event emissions, used to count them. -/
def isUnauthorizedEmit : Event → Bool
  | Event.emit _ n _ => decide (n = "unauthorized")
  | _ => false

/-- C5: on predicate failure, every namespace holding a Registration whose
root identifier matches receives exactly one `unauthorized` event whose
payload message is the error's message when an error was provided and the
string `Authentication failure` otherwise, and the disconnect of that
connection is recorded only after the delivery acknowledgment of the
event. -/
theorem failure_fanout_unauthorized_then_close (nsp : Nsp) (socketId : Id)
    (err : Option JsError) (e : JsError) :
    msgOf (some e) = e.message
    ∧ msgOf none = "Authentication failure"
    ∧ ((∃ s ∈ nsp.sockets, rootSocketId s.id = rootSocketId socketId) →
        ∃ s, findWhere nsp.sockets (rootSocketId socketId) = some s
          ∧ (disconnectConnections nsp socketId (msgOf err)).2
              = [Event.emit s.id "unauthorized" (Payload.msgP (msgOf err)),
                 Event.ack s.id,
                 Event.disconnect s.id none]
          ∧ ((disconnectConnections nsp socketId (msgOf err)).2.countP
              isUnauthorizedEmit) = 1) := by
  refine ⟨rfl, rfl, ?_⟩
  rintro ⟨s0, hs0, hroot⟩
  cases hw : findWhere nsp.sockets (rootSocketId socketId) with
  | none =>
    exfalso
    simp only [findWhere] at hw
    have := List.find?_eq_none.mp hw s0 hs0
    simp [hroot] at this
  | some s =>
    refine ⟨s, rfl, ?_, ?_⟩
    · simp [disconnectConnections, hw]
    · simp [disconnectConnections, hw, List.countP_cons, isUnauthorizedEmit,
        List.countP_nil]

/-- C5 witness: concrete instantiation of
`failure_fanout_unauthorized_then_close` reproducing the spec's scenario of
an error with message `bad token`. -/
theorem failure_fanout_unauthorized_then_close_witness :
    ∃ s, findWhere
        [{ id := "/a#XYZ".toList, auth := false }] (rootSocketId "/a#XYZ".toList)
        = some s
      ∧ (disconnectConnections
          { name := "/a", sockets := [{ id := "/a#XYZ".toList, auth := false }], connected := [] }
          "/a#XYZ".toList (msgOf (some { message := "bad token" }))).2
          = [Event.emit s.id "unauthorized" (Payload.msgP (msgOf (some { message := "bad token" }))),
             Event.ack s.id,
             Event.disconnect s.id none]
      ∧ ((disconnectConnections
          { name := "/a", sockets := [{ id := "/a#XYZ".toList, auth := false }], connected := [] }
          "/a#XYZ".toList (msgOf (some { message := "bad token" }))).2.countP
            isUnauthorizedEmit) = 1 :=
  (failure_fanout_unauthorized_then_close
    { name := "/a", sockets := [{ id := "/a#XYZ".toList, auth := false }], connected := [] }
    "/a#XYZ".toList (some { message := "bad token" })
    { message := "bad token" }).2.2 (by decide)

lemma statusOf_eq_rejected_iff (nsp : Nsp) (sid : Id) :
    statusOf nsp sid = Status.rejected ↔
      nsp.sockets.find? (fun s => decide (s.id = sid)) = none := by
  simp only [statusOf]
  cases hq : nsp.sockets.find? (fun s => decide (s.id = sid)) with
  | none => simp
  | some x => by_cases hx : x.auth = true <;> simp [hx]

lemma statusOf_eq_authenticated_iff (nsp : Nsp) (sid : Id) :
    statusOf nsp sid = Status.authenticated ↔
      ∃ x, nsp.sockets.find? (fun s => decide (s.id = sid)) = some x
        ∧ x.auth = true := by
  simp only [statusOf]
  cases hq : nsp.sockets.find? (fun s => decide (s.id = sid)) with
  | none => simp
  | some x => by_cases hx : x.auth = true <;> simp [hx]

lemma find_id_setAuth_self (l : List Socket) (tid : Id) :
    (setAuth l tid).find? (fun s => decide (s.id = tid))
      = (l.find? (fun s => decide (s.id = tid))).map
          (fun s => { s with auth := true }) := by
  induction l with
  | nil => rfl
  | cons a l ih =>
    simp only [setAuth, List.map_cons] at *
    by_cases ha : a.id = tid
    · rw [if_pos ha]
      have hb : decide (a.id = tid) = true := by simp [ha]
      simp only [List.find?_cons, hb]
      rfl
    · rw [if_neg ha]
      have hb : decide (a.id = tid) = false := by simp [ha]
      simp only [List.find?_cons, hb]
      exact ih

lemma find_id_setAuth_ne (l : List Socket) (sid tid : Id) (h : ¬ sid = tid) :
    (setAuth l tid).find? (fun s => decide (s.id = sid))
      = l.find? (fun s => decide (s.id = sid)) := by
  induction l with
  | nil => rfl
  | cons a l ih =>
    simp only [setAuth, List.map_cons] at *
    by_cases ha : a.id = tid
    · rw [if_pos ha]
      have hb : decide (a.id = sid) = false := by
        simp only [decide_eq_false_iff_not]
        intro hs
        exact h (by rw [← hs]; exact ha)
      simp only [List.find?_cons, hb, ih]
    · rw [if_neg ha]
      simp only [List.find?_cons]
      cases hb : decide (a.id = sid) <;> simp [ih]

/-- C8 counterexample: a Session already `authenticated` is hit by a second
verification outcome that resolves as failure (the listener of src line 30
stays installed, so a second `authentication` message re-invokes the
predicate); the failure fan-out finds the authenticated registration by
root id and disconnects it, so the status leaves the terminal
`authenticated` state for `rejected`. -/
theorem authenticated_then_failure_disconnects :
    statusOf
        { name := "/a", sockets := [{ id := "/a#XYZ".toList, auth := true }], connected := [] }
        "/a#XYZ".toList = Status.authenticated
    ∧ statusOf
        (stepNsp
          { name := "/a", sockets := [{ id := "/a#XYZ".toList, auth := true }], connected := [] }
          (SessionEvent.outcome "/a#XYZ".toList none false)).1
        "/a#XYZ".toList = Status.rejected := by
  refine ⟨by decide, by decide⟩

/-- C8 (amended): a `rejected` status is terminal under every subsequent
step, and an `authenticated` status is left only for `rejected` and only
when a further verification outcome resolves as failure (the unguarded
re-invocation the spec's open question describes); in particular timer
firings and successful outcomes never change a terminal status, and the
only transitions out of `pending` are to `authenticated` or `rejected`. -/
theorem status_transition_discipline (nsp : Nsp) (e : SessionEvent) (sid : Id) :
    (statusOf nsp sid = Status.rejected →
      statusOf (stepNsp nsp e).1 sid = Status.rejected)
    ∧ (statusOf nsp sid = Status.authenticated →
        statusOf (stepNsp nsp e).1 sid = Status.authenticated
        ∨ ((∃ sender err, e = SessionEvent.outcome sender err false)
            ∧ statusOf (stepNsp nsp e).1 sid = Status.rejected)) := by
  cases e with
  | timerFire tid =>
    cases hf : nsp.sockets.find? (fun s => decide (s.id = tid)) with
    | none =>
      constructor
      · intro h
        simpa [stepNsp, timerFireStep, hf] using h
      · intro h
        left
        simpa [stepNsp, timerFireStep, hf] using h
    | some s =>
      cases hauth : s.auth with
      | true =>
        constructor
        · intro h
          simpa [stepNsp, timerFireStep, hf, hauth] using h
        · intro h
          left
          simpa [stepNsp, timerFireStep, hf, hauth] using h
      | false =>
        constructor
        · intro h
          have hs := (statusOf_eq_rejected_iff nsp sid).mp h
          rw [statusOf_eq_rejected_iff]
          simp only [stepNsp, timerFireStep, hf, hauth, Bool.false_eq_true,
            if_false, disconnectSocket]
          exact find_none_filter _ _ _ hs
        · intro h
          obtain ⟨x, hq, hx⟩ := (statusOf_eq_authenticated_iff nsp sid).mp h
          left
          have hid : ¬ sid = tid := by
            intro hcontra
            rw [hcontra] at hq
            rw [hq] at hf
            have : x = s := by injection hf
            rw [this] at hx
            rw [hauth] at hx
            cases hx
          rw [statusOf_eq_authenticated_iff]
          refine ⟨x, ?_, hx⟩
          simp only [stepNsp, timerFireStep, hf, hauth, Bool.false_eq_true,
            if_false, disconnectSocket]
          rw [find_id_filter_ne _ _ _ hid]
          exact hq
  | outcome sender err success =>
    cases success with
    | true =>
      cases hw : findWhere nsp.sockets (rootSocketId sender) with
      | none =>
        constructor
        · intro h
          simpa [stepNsp, authConnections, hw] using h
        · intro h
          left
          simpa [stepNsp, authConnections, hw] using h
      | some s =>
        have hmem : s ∈ nsp.sockets := by
          simp only [findWhere] at hw
          exact List.mem_of_find?_eq_some hw
        constructor
        · intro h
          have hs := (statusOf_eq_rejected_iff nsp sid).mp h
          have hid : ¬ sid = s.id := by
            intro hcontra
            have := List.find?_eq_none.mp hs s hmem
            simp [hcontra] at this
          rw [statusOf_eq_rejected_iff]
          simp only [stepNsp, if_true, authConnections, hw]
          rw [find_id_setAuth_ne _ _ _ hid]
          exact hs
        · intro h
          obtain ⟨x, hq, hx⟩ := (statusOf_eq_authenticated_iff nsp sid).mp h
          left
          rw [statusOf_eq_authenticated_iff]
          by_cases hid : sid = s.id
          · refine ⟨{ x with auth := true }, ?_, rfl⟩
            simp only [stepNsp, if_true, authConnections, hw]
            rw [hid, find_id_setAuth_self, ← hid, hq]
            rfl
          · refine ⟨x, ?_, hx⟩
            simp only [stepNsp, if_true, authConnections, hw]
            rw [find_id_setAuth_ne _ _ _ hid]
            exact hq
    | false =>
      cases hw : findWhere nsp.sockets (rootSocketId sender) with
      | none =>
        constructor
        · intro h
          simpa [stepNsp, disconnectConnections, hw] using h
        · intro h
          left
          simpa [stepNsp, disconnectConnections, hw] using h
      | some s =>
        constructor
        · intro h
          have hs := (statusOf_eq_rejected_iff nsp sid).mp h
          rw [statusOf_eq_rejected_iff]
          simp only [stepNsp, Bool.false_eq_true, if_false,
            disconnectConnections, hw, disconnectSocket]
          exact find_none_filter _ _ _ hs
        · intro h
          by_cases hid : sid = s.id
          · right
            refine ⟨⟨sender, err, rfl⟩, ?_⟩
            rw [statusOf_eq_rejected_iff]
            simp only [stepNsp, Bool.false_eq_true, if_false,
              disconnectConnections, hw, disconnectSocket]
            rw [hid]
            exact find_id_filter_out nsp.sockets s.id
          · left
            obtain ⟨x, hq, hx⟩ := (statusOf_eq_authenticated_iff nsp sid).mp h
            rw [statusOf_eq_authenticated_iff]
            refine ⟨x, ?_, hx⟩
            simp only [stepNsp, Bool.false_eq_true, if_false,
              disconnectConnections, hw, disconnectSocket]
            rw [find_id_filter_ne _ _ _ hid]
            exact hq

/-- C8 witness: concrete instantiations of `status_transition_discipline`:
a rejected (already removed) registration stays rejected across a timer
firing, and an authenticated one stays authenticated across a successful
outcome. -/
theorem status_transition_discipline_witness :
    statusOf
      (stepNsp { name := "/a", sockets := [], connected := [] }
        (SessionEvent.timerFire ('x' :: []))).1 ('x' :: []) = Status.rejected
    ∧ (statusOf
        (stepNsp
          { name := "/a", sockets := [{ id := "/a#XYZ".toList, auth := true }], connected := [] }
          (SessionEvent.outcome "/a#XYZ".toList none true)).1
        "/a#XYZ".toList = Status.authenticated
      ∨ ((∃ sender err,
            SessionEvent.outcome "/a#XYZ".toList none true
              = SessionEvent.outcome sender err false)
          ∧ statusOf
            (stepNsp
              { name := "/a", sockets := [{ id := "/a#XYZ".toList, auth := true }], connected := [] }
              (SessionEvent.outcome "/a#XYZ".toList none true)).1
            "/a#XYZ".toList = Status.rejected)) :=
  ⟨(status_transition_discipline
      { name := "/a", sockets := [], connected := [] }
      (SessionEvent.timerFire ('x' :: [])) ('x' :: [])).1 (by decide),
   (status_transition_discipline
      { name := "/a", sockets := [{ id := "/a#XYZ".toList, auth := true }], connected := [] }
      (SessionEvent.outcome "/a#XYZ".toList none true) "/a#XYZ".toList).2 (by decide)⟩

end SocketioAuth
